import Mathlib

/-!
Shallow embedding of `src/worker.js` (a Cloudflare-Workers Yjs whiteboard
relay: Durable Object class `WhiteboardRoom` plus the outer router).

Modelling conventions:
* Bytes are `List Nat` (each entry one octet).
* A WebSocket handle is a `Nat` id; the per-connection `session` object
  (`const session = {}` in `handleSession`) is an opaque identity token,
  modelled as a `Nat`; JS object identity (`!==`) becomes `Nat` equality
  under the assumption that distinct connections get distinct tokens.
* The external engines (yjs document merge, y-protocols awareness and sync)
  are abstract: an `Engines` record of pure functions stands for
  `syncProtocol.readSyncMessage`, `applyAwarenessUpdate`,
  `encodeAwarenessUpdate` and `syncProtocol.writeSyncStep1`.
  The document state is identified with its full-state encoding
  (`Y.encodeStateAsUpdate`).
* Effects are made explicit: each step returns the next room state together
  with the frames the handler itself sent (`sends`), and whether the handler
  closed the connection (`closed`; the source never closes it).
* Engine-emitted update events (`ydoc.on update`, `awareness.on update`) are
  environment-scheduled events of the state machine (`Event.docUpdate`,
  `Event.awarenessUpdate`), since whether and when a message to an engine
  fires those callbacks is the engine's business.
* Whether `ws.send` throws inside `broadcast` is environment-determined and
  is passed in as the set `failSet` of handles whose send fails.
-/

/-- Message type tag `MESSAGE_SYNC = 0` of worker.js. -/
def MESSAGE_SYNC : Nat := 0

/-- Message type tag `MESSAGE_AWARENESS = 1` of worker.js. -/
def MESSAGE_AWARENESS : Nat := 1

/-- Message type tag `MESSAGE_AUTH = 2` of worker.js. -/
def MESSAGE_AUTH : Nat := 2

/-- Message type tag `MESSAGE_QUERY_AWARENESS = 3` of worker.js. -/
def MESSAGE_QUERY_AWARENESS : Nat := 3

/-- lib0 `decoding.readVarUint`: 7-bit groups, little-endian, high bit is the
continuation flag.  Returns the decoded value and the remaining bytes, or
`none` when the input ends inside the integer. -/
def readVarUintAux : List Nat → Nat → Nat → Option (Nat × List Nat)
  | [], _, _ => none
  | b :: rest, mult, acc =>
    let acc2 := acc + (b % 128) * mult
    if b < 128 then some (acc2, rest) else readVarUintAux rest (mult * 128) acc2

/-- lib0 `decoding.readVarUint` applied at the start of a byte list. -/
def readVarUint (l : List Nat) : Option (Nat × List Nat) :=
  readVarUintAux l 1 0

/-- lib0 `encoding.writeVarUint`. -/
def writeVarUint (n : Nat) : List Nat :=
  if n < 128 then [n]
  else (n % 128 + 128) :: writeVarUint (n / 128)
termination_by n
decreasing_by exact Nat.div_lt_self (by omega) (by omega)

/-- lib0 `decoding.readVarUint8Array`: a var-uint length prefix followed by
that many payload bytes.  Returns the payload and the remaining bytes. -/
def readVarUint8Array (l : List Nat) : Option (List Nat × List Nat) :=
  match readVarUint l with
  | none => none
  | some (len, rest) =>
    if len ≤ rest.length then some (rest.take len, rest.drop len) else none

/-- lib0 `encoding.writeVarUint8Array`: length prefix followed by the bytes. -/
def writeVarUint8Array (b : List Nat) : List Nat :=
  writeVarUint b.length ++ b

/-- The helper `encodeAwarenessMessage` of worker.js: an Awareness-tagged
frame carrying a length-prefixed awareness update. -/
def encodeAwarenessMessage (awarenessUpdate : List Nat) : List Nat :=
  MESSAGE_AWARENESS :: writeVarUint8Array awarenessUpdate

/-- The origin argument of `broadcast`: either a session identity token
(the `session` object of the causing connection) or a non-session value
such as the string origin used by awareness removals or a local origin.
A non-session origin compares unequal (`!==`) to every session object. -/
inductive Origin where
  | session (tok : Nat)
  | nonSession
deriving DecidableEq

/-- Whether a session token is (`===`) the broadcast origin. -/
def sessionMatches (tok : Nat) (origin : Origin) : Bool :=
  match origin with
  | .session t => tok == t
  | .nonSession => false

/-- Durable-storage contents relevant to the room: the `yjsDoc` entry and
the `passcode` entry. -/
structure Storage where
  yjsDoc : Option (List Nat)
  passcode : Option String
deriving DecidableEq

/-- In-memory state of one `WhiteboardRoom` instance.  `sessions` is the
`Map` from socket handle to session token in insertion order; `awareness`
is the awareness engine's states map (client id to opaque state blob). -/
structure RoomState where
  sessions : List (Nat × Nat)
  passcode : Option String
  doc : List Nat
  awareness : List (Nat × List Nat)
  storage : Storage
deriving DecidableEq

/-- The external engine operations consumed by the room actor.
`readSyncMessage bytes origin doc` returns the response payload that
`syncProtocol.readSyncMessage` appends after the type tag, and the new
document state.  `encodeAwarenessUpdate states ids` encodes an awareness
update for `ids` out of `states`.  `applyAwarenessUpdate update origin
states` merges an incoming update.  `writeSyncStep1 doc` is the payload of
the initial sync handshake frame. -/
structure Engines where
  readSyncMessage : List Nat → Nat → List Nat → List Nat × List Nat
  applyAwarenessUpdate : List Nat → Nat → List (Nat × List Nat) → List (Nat × List Nat)
  encodeAwarenessUpdate : List (Nat × List Nat) → List Nat → List Nat
  writeSyncStep1 : List Nat → List Nat

/-- The loop of `WhiteboardRoom.broadcast`: iterate the session table; skip
entries whose session token is (`===`) the origin; attempt `ws.send` on all
others; an entry whose send throws is deleted from the table.  Returns the
handles a send was attempted on (in table order) and the surviving table. -/
def broadcastLoop : List (Nat × Nat) → Origin → List Nat → List Nat × List (Nat × Nat)
  | [], _, _ => ([], [])
  | e :: rest, origin, failSet =>
    let tailOut := broadcastLoop rest origin failSet
    if sessionMatches e.2 origin then (tailOut.1, e :: tailOut.2)
    else if failSet.contains e.1 then (e.1 :: tailOut.1, tailOut.2)
    else (e.1 :: tailOut.1, e :: tailOut.2)

/-- JS `Map.set` on the assoc-list model: replace in place if the key is
present, else append. -/
def sessionSet (l : List (Nat × Nat)) (k v : Nat) : List (Nat × Nat) :=
  if l.any (fun e => e.1 == k) then
    l.map (fun e => if e.1 == k then (k, v) else e)
  else l ++ [(k, v)]

/-- ASCII lowering, as `String.prototype.toLowerCase` behaves on the header
values of interest; written by structural recursion over the character
list so that the kernel can evaluate it. -/
def lowerStr (s : String) : String :=
  String.mk (s.data.map Char.toLower)

/-- JS `String.prototype.split('/')` on the pathname, as a structural
recursion over the character list: maximal runs between slashes, with
empty pieces kept (`'/a'.split('/')` is `['', 'a']`). -/
def splitSlashAux : List Char → List Char → List (List Char)
  | [], acc => [acc.reverse]
  | c :: rest, acc =>
    if c = '/' then acc.reverse :: splitSlashAux rest []
    else splitSlashAux rest (c :: acc)

/-- JS `pathname.split('/')`. -/
def splitSlash (s : String) : List String :=
  (splitSlashAux s.data []).map String.mk

/-- An upgrade request as the room actor sees it: the `Upgrade` header and
the `passcode` query parameter (`none` when absent; `searchParams.get`
yields the empty string for `?passcode=`). -/
structure UpgradeRequest where
  upgradeHeader : Option String
  passcodeParam : Option String
deriving DecidableEq

/-- The guard `request.headers.get('Upgrade')?.toLowerCase() === 'websocket'`
(worker.js line 77 and `isWebSocketUpgrade`). -/
def isWebSocketUpgradeReq (req : UpgradeRequest) : Bool :=
  match req.upgradeHeader with
  | some h => lowerStr h == "websocket"
  | none => false

/-- Outcome of `WhiteboardRoom.fetch`: status 426, 401 or 101. -/
inductive FetchResponse where
  | expectedWebsocket
  | invalidPasscode
  | upgraded
deriving DecidableEq

/-- Result of `WhiteboardRoom.fetch`: the response, the room state
afterwards, and the frames sent to the new socket by `handleSession`. -/
structure FetchOut where
  response : FetchResponse
  state : RoomState
  sends : List (Nat × List Nat)
deriving DecidableEq

/-- The admission part of `handleSession` (worker.js lines 102-116): accept
the socket, register the session, send the sync step-1 frame and a full
awareness snapshot to the new socket only. -/
def handleSessionOpen (eng : Engines) (st : RoomState) (ws tok : Nat) :
    RoomState × List (Nat × List Nat) :=
  let st1 := { st with sessions := sessionSet st.sessions ws tok }
  let syncFrame := MESSAGE_SYNC :: eng.writeSyncStep1 st.doc
  let ids := st.awareness.map Prod.fst
  let awFrame := encodeAwarenessMessage (eng.encodeAwarenessUpdate st.awareness ids)
  (st1, [(ws, syncFrame), (ws, awFrame)])

/-- `WhiteboardRoom.fetch` (worker.js lines 76-100).  `userPasscode` is
`url.searchParams.get('passcode') || ''`.  A non-null passcode mismatching
`userPasscode` is rejected with 401; a null passcode is set (in memory and
in storage) only when `userPasscode` is truthy, i.e. non-empty. -/
def roomFetch (eng : Engines) (st : RoomState) (req : UpgradeRequest)
    (ws tok : Nat) : FetchOut :=
  if isWebSocketUpgradeReq req then
    let userPasscode := req.passcodeParam.getD ""
    match st.passcode with
    | some sec =>
      if userPasscode = sec then
        let opened := handleSessionOpen eng st ws tok
        ⟨.upgraded, opened.1, opened.2⟩
      else ⟨.invalidPasscode, st, []⟩
    | none =>
      let st1 :=
        if userPasscode = "" then st
        else { st with passcode := some userPasscode,
                       storage := { st.storage with passcode := some userPasscode } }
      let opened := handleSessionOpen eng st1 ws tok
      ⟨.upgraded, opened.1, opened.2⟩
  else ⟨.expectedWebsocket, st, []⟩

/-- Inbound message-event data: a binary frame (ArrayBuffer or a view) is
normalised to bytes; anything else (for example a text frame) leaves
`data` null and the handler returns at once. -/
inductive WsData where
  | binary (bytes : List Nat)
  | text (s : String)
  | other
deriving DecidableEq

/-- Result of one run of the message handler: the room state afterwards,
every frame the handler itself sent (target handle and bytes), and whether
the handler closed the connection (the source never does). -/
structure MsgOut where
  state : RoomState
  sends : List (Nat × List Nat)
  closed : Bool
deriving DecidableEq

/-- The `message` listener of `handleSession` (worker.js lines 118-163).
Non-binary data returns early.  Otherwise the leading var-uint selects the
kind: Sync runs `readSyncMessage` with this session's token and replies to
this socket only when the response encoder holds more than the single tag
byte; Awareness applies the length-prefixed payload with this session's
token; QueryAwareness replies with a full awareness snapshot; Auth and
every unrecognized tag fall through the if/else chain with no effect.
A frame whose var-uint or length prefix runs past the end of the data is
out of scope of the model and is mapped to a no-op. -/
def messageStep (eng : Engines) (st : RoomState) (ws tok : Nat)
    (data : WsData) : MsgOut :=
  match data with
  | .text _ => ⟨st, [], false⟩
  | .other => ⟨st, [], false⟩
  | .binary d =>
    match readVarUint d with
    | none => ⟨st, [], false⟩
    | some (t, rest) =>
      if t = MESSAGE_SYNC then
        let res := eng.readSyncMessage rest tok st.doc
        let encoder := MESSAGE_SYNC :: res.1
        let sends := if encoder.length > 1 then [(ws, encoder)] else []
        ⟨{ st with doc := res.2 }, sends, false⟩
      else if t = MESSAGE_AWARENESS then
        match readVarUint8Array rest with
        | some (payload, _) =>
          ⟨{ st with awareness := eng.applyAwarenessUpdate payload tok st.awareness },
            [], false⟩
        | none => ⟨st, [], false⟩
      else if t = MESSAGE_QUERY_AWARENESS then
        let ids := st.awareness.map Prod.fst
        let update := eng.encodeAwarenessUpdate st.awareness ids
        ⟨st, [(ws, encodeAwarenessMessage update)], false⟩
      else
        ⟨st, [], false⟩

/-- The `close` listener of `handleSession` (worker.js lines 165-177):
remove every client id currently in the awareness state with reason
"disconnect" (which triggers the awareness update event, broadcasting a
tombstone with the non-session origin "disconnect"); delete the session
entry; if the table is now empty, null the passcode and delete its storage
entry.  Returns the new state and the `removeStates` calls made
(ids and reason). -/
def closeStep (st : RoomState) (ws : Nat) (failSet : List Nat) :
    RoomState × List (List Nat × String) :=
  let ids := st.awareness.map Prod.fst
  let afterRemove :=
    if ids.isEmpty then (st.awareness, st.sessions, ([] : List (List Nat × String)))
    else (st.awareness.filter (fun e => ¬ ids.contains e.1),
          (broadcastLoop st.sessions Origin.nonSession failSet).2,
          [(ids, "disconnect")])
  let sess2 := afterRemove.2.1.filter (fun e => e.1 ≠ ws)
  if sess2.isEmpty then
    ({ st with awareness := afterRemove.1, sessions := sess2,
               passcode := none,
               storage := { st.storage with passcode := none } },
     afterRemove.2.2)
  else
    ({ st with awareness := afterRemove.1, sessions := sess2 }, afterRemove.2.2)

/-- The `ydoc.on('update')` handler (worker.js lines 47-56): frame the
update as a Sync message, broadcast it excluding the origin, and persist
the full document encoding under `yjsDoc`.  `newDoc` is the document state
after the update that fired the event.  Returns the new room state and the
handles the broadcast attempted to send to. -/
def docUpdateStep (st : RoomState) (newDoc : List Nat) (origin : Origin)
    (failSet : List Nat) : RoomState × List Nat :=
  let bc := broadcastLoop st.sessions origin failSet
  ({ st with doc := newDoc, sessions := bc.2,
             storage := { st.storage with yjsDoc := some newDoc } },
   bc.1)

/-- The `awareness.on('update')` handler (worker.js lines 58-73): when
added and updated ids exist, broadcast an update for them excluding the
origin; when removed ids exist, broadcast a separate tombstone update,
again excluding the origin; each broadcast may drop sessions whose send
fails. -/
def awarenessUpdateStep (st : RoomState) (added updated removed : List Nat)
    (origin : Origin) (failSet : List Nat) : RoomState :=
  let changed := added ++ updated
  let st1 :=
    if changed.isEmpty then st
    else { st with sessions := (broadcastLoop st.sessions origin failSet).2 }
  if removed.isEmpty then st1
  else { st1 with sessions := (broadcastLoop st1.sessions origin failSet).2 }

/-- Environment-scheduled events driving one room actor. -/
inductive Event where
  | connect (ws tok : Nat) (upgradeHeader : Option String) (passcodeParam : Option String)
  | message (ws : Nat) (data : WsData)
  | closeWs (ws : Nat) (failSet : List Nat)
  | docUpdate (newDoc : List Nat) (origin : Origin) (failSet : List Nat)
  | awarenessUpdate (added updated removed : List Nat) (origin : Origin) (failSet : List Nat)
deriving DecidableEq

/-- One event step of the room actor.  A message event uses the session
token the listener closure captured at registration, looked up in the
session table; a message on an unregistered handle is a no-op. -/
def step (eng : Engines) (st : RoomState) : Event → RoomState
  | .connect ws tok up pc => (roomFetch eng st ⟨up, pc⟩ ws tok).state
  | .message ws data =>
    match st.sessions.lookup ws with
    | some tok => (messageStep eng st ws tok data).state
    | none => st
  | .closeWs ws failSet => (closeStep st ws failSet).1
  | .docUpdate newDoc origin failSet => (docUpdateStep st newDoc origin failSet).1
  | .awarenessUpdate a u r origin failSet => awarenessUpdateStep st a u r origin failSet

/-- Constructor plus hydration (worker.js lines 27-45): sessions empty,
document hydrated from the stored snapshot, and the passcode taken from
storage only when the stored value is truthy (`if (storedPasscode)`), so a
stored empty string leaves it null.  The awareness engine starts with no
remotely observable client states. -/
def initState (storage : Storage) : RoomState :=
  { sessions := []
    passcode :=
      match storage.passcode with
      | some p => if p = "" then none else some p
      | none => none
    doc := storage.yjsDoc.getD []
    awareness := []
    storage := storage }

/-- Run the actor from hydration over a list of events. -/
def run (eng : Engines) (storage : Storage) (events : List Event) : RoomState :=
  events.foldl (step eng) (initState storage)

/-- A state is reachable when some storage contents and event trace lead
to it. -/
def Reachable (eng : Engines) (st : RoomState) : Prop :=
  ∃ storage events, run eng storage events = st

/-- A concrete engine instance used to evaluate the model on closed
inputs. -/
def engTest : Engines where
  readSyncMessage := fun rest _ doc => (rest, doc ++ rest)
  applyAwarenessUpdate := fun _ _ states => states
  encodeAwarenessUpdate := fun _ ids => ids
  writeSyncStep1 := fun doc => doc

/-- The constant `WEBSOCKET_PATH` of worker.js. -/
def WEBSOCKET_PATH : String := "websocket"

/-- The parts of the request URL the router looks at: the `room` query
parameter (`none` when absent) and the pathname. -/
structure UrlParts where
  roomParam : Option String
  pathname : String
deriving DecidableEq

/-- `getRoomNameFromPath` of worker.js (lines 202-214): split the pathname
on slashes, drop falsy (empty) segments; no segment yields ""; a leading
`websocket` segment yields the remaining segments joined by "/"; exactly
one segment yields that segment; anything else yields "". -/
def getRoomNameFromPath (pathname : String) : String :=
  let segments := (splitSlash pathname).filter (fun s => s ≠ "")
  match segments with
  | [] => ""
  | s0 :: rest =>
    if s0 = WEBSOCKET_PATH then String.intercalate "/" rest
    else if rest = [] then s0
    else ""

/-- `getRoomName` of worker.js (lines 216-217):
`url.searchParams.get('room') || getRoomNameFromPath(url.pathname)` — a
missing or empty `room` parameter falls through to the path rule. -/
def getRoomName (u : UrlParts) : String :=
  match u.roomParam with
  | some r => if r = "" then getRoomNameFromPath u.pathname else r
  | none => getRoomNameFromPath u.pathname

/-- Resolution rule in the order the claim states it (written from the
claim's words, for comparison against `getRoomName`): the `room` query
parameter if present and non-empty, else the single path segment when the
path has exactly one segment, else the segments following a leading
`websocket` segment. -/
def claimRoomName (u : UrlParts) : String :=
  let segments := (splitSlash u.pathname).filter (fun s => s ≠ "")
  let fromPath :=
    match segments with
    | [] => ""
    | s0 :: rest =>
      if rest = [] then s0
      else if s0 = WEBSOCKET_PATH then String.intercalate "/" rest
      else ""
  match u.roomParam with
  | some r => if r = "" then fromPath else r
  | none => fromPath

/-- Resolution rule as amended: the `room` query parameter if present and
non-empty, else the segments following a leading `websocket` segment, else
the single path segment when the path has exactly one segment. -/
def amendedRoomName (u : UrlParts) : String :=
  let segments := (splitSlash u.pathname).filter (fun s => s ≠ "")
  let fromPath :=
    match segments with
    | [] => ""
    | s0 :: rest =>
      if s0 = WEBSOCKET_PATH then String.intercalate "/" rest
      else if rest = [] then s0
      else ""
  match u.roomParam with
  | some r => if r = "" then fromPath else r
  | none => fromPath

/-- The router's `isWebSocketUpgrade` guard (worker.js lines 199-200). -/
def isUpgradeHeaderVal (h : Option String) : Bool :=
  match h with
  | some v => lowerStr v == "websocket"
  | none => false

/-- A request as the outer router sees it. -/
structure WorkerRequest where
  upgradeHeader : Option String
  url : UrlParts
deriving DecidableEq

/-- Outcome of the default-export `fetch` (worker.js lines 223-239): plain
"OK" for non-upgrade requests, 400 for a missing room name, otherwise the
request is forwarded to the Durable Object for the resolved room name. -/
inductive WorkerResult where
  | okHealth
  | missingRoom
  | forwarded (room : String)
deriving DecidableEq

/-- The default-export `fetch` of worker.js. -/
def workerFetch (req : WorkerRequest) : WorkerResult :=
  if isUpgradeHeaderVal req.upgradeHeader then
    let roomName := getRoomName req.url
    if roomName = "" then .missingRoom else .forwarded roomName
  else .okHealth

/-- The passcode is untouched by the message handler, in every branch. -/
lemma messageStep_passcode (eng : Engines) (st : RoomState) (ws tok : Nat)
    (data : WsData) : (messageStep eng st ws tok data).state.passcode = st.passcode := by
  cases data with
  | text s => rfl
  | other => rfl
  | binary d =>
    simp only [messageStep]
    rcases readVarUint d with _ | ⟨t, rest⟩
    · rfl
    · dsimp only
      split
      · rfl
      · split
        · split <;> rfl
        · split <;> rfl

/-- After the close handler, the passcode is either reset or unchanged. -/
lemma closeStep_passcode (st : RoomState) (ws : Nat) (failSet : List Nat) :
    (closeStep st ws failSet).1.passcode = none ∨
      (closeStep st ws failSet).1.passcode = st.passcode := by
  simp only [closeStep]
  split <;> split <;> first | exact Or.inl rfl | exact Or.inr rfl

/-- The document-update broadcast handler never changes the passcode. -/
lemma docUpdateStep_passcode (st : RoomState) (newDoc : List Nat) (origin : Origin)
    (failSet : List Nat) : (docUpdateStep st newDoc origin failSet).1.passcode = st.passcode :=
  rfl

/-- The awareness-update broadcast handler never changes the passcode. -/
lemma awarenessUpdateStep_passcode (st : RoomState) (added updated removed : List Nat)
    (origin : Origin) (failSet : List Nat) :
    (awarenessUpdateStep st added updated removed origin failSet).passcode = st.passcode := by
  simp only [awarenessUpdateStep]
  split <;> split <;> rfl

/-- Admission never sets the passcode to the empty string: it either keeps
the passcode or stores the non-empty supplied value. -/
lemma roomFetch_passcode (eng : Engines) (st : RoomState) (req : UpgradeRequest)
    (ws tok : Nat) :
    (roomFetch eng st req ws tok).state.passcode = st.passcode ∨
      ∃ p, p ≠ "" ∧ (roomFetch eng st req ws tok).state.passcode = some p := by
  simp only [roomFetch]
  by_cases hup : isWebSocketUpgradeReq req
  · simp only [hup, if_true]
    rcases hpc : st.passcode with _ | sec
    · by_cases hu : req.passcodeParam.getD "" = ""
      · simp [hu, handleSessionOpen, hpc]
      · exact Or.inr ⟨req.passcodeParam.getD "", hu, by simp [hu, handleSessionOpen]⟩
    · by_cases hu : req.passcodeParam.getD "" = sec
      · simp [hu, handleSessionOpen, hpc]
      · simp [hu, hpc]
  · simp [hup]

/-- One event step preserves the invariant that the passcode is never the
empty string. -/
lemma step_passcode_ne (eng : Engines) (st : RoomState) (ev : Event)
    (h : st.passcode ≠ some "") : (step eng st ev).passcode ≠ some "" := by
  cases ev with
  | connect ws tok up pc =>
    rcases roomFetch_passcode eng st ⟨up, pc⟩ ws tok with heq | ⟨p, hp, heq⟩
    · simpa [step, heq]
    · simp only [step, heq]
      intro hcon
      exact hp (by injection hcon)
  | message ws data =>
    simp only [step]
    rcases st.sessions.lookup ws with _ | tok
    · exact h
    · rw [messageStep_passcode]; exact h
  | closeWs ws failSet =>
    rcases closeStep_passcode st ws failSet with heq | heq <;> simp only [step, heq]
    · simp
    · exact h
  | docUpdate newDoc origin failSet =>
    simpa only [step, docUpdateStep_passcode] using h
  | awarenessUpdate a u r origin failSet =>
    simpa only [step, awarenessUpdateStep_passcode] using h

/-- Hydration never yields an empty-string passcode: a stored falsy value
is ignored. -/
lemma initState_passcode_ne (storage : Storage) :
    (initState storage).passcode ≠ some "" := by
  simp only [initState]
  rcases storage.passcode with _ | p
  · simp
  · by_cases hp : p = "" <;> simp [hp]

/-- In every run of the actor the passcode is never the empty string. -/
lemma run_passcode_ne (eng : Engines) (storage : Storage) (events : List Event) :
    (run eng storage events).passcode ≠ some "" := by
  suffices hgen : ∀ st : RoomState, st.passcode ≠ some "" →
      (events.foldl (step eng) st).passcode ≠ some "" from
    hgen _ (initState_passcode_ne storage)
  induction events with
  | nil => exact fun st h => h
  | cons e es ih => exact fun st h => ih _ (step_passcode_ne eng st e h)

/-- In every reachable state the passcode is never the empty string. -/
lemma reachable_passcode_ne (eng : Engines) (st : RoomState)
    (h : Reachable eng st) : st.passcode ≠ some "" := by
  obtain ⟨storage, events, rfl⟩ := h
  exact run_passcode_ne eng storage events

/-- C1: for every broadcast, a send is attempted on exactly those session
table entries whose session token differs from the origin — in particular
the originating session never receives the message. -/
theorem broadcast_skips_origin (entries : List (Nat × Nat)) (origin : Origin)
    (failSet : List Nat) :
    (broadcastLoop entries origin failSet).1 =
      (entries.filter (fun e => ! sessionMatches e.2 origin)).map Prod.fst := by
  induction entries with
  | nil => rfl
  | cons e rest ih =>
    by_cases h : sessionMatches e.2 origin
    · simp [broadcastLoop, h, ih]
    · by_cases hf : e.1 ∈ failSet <;> simp [broadcastLoop, h, hf, ih]

/-- The close handler resets the passcode (memory and storage) exactly
when the session table it leaves behind is empty. -/
lemma closeStep_sessions_passcode (st : RoomState) (ws : Nat) (failSet : List Nat) :
    (closeStep st ws failSet).1.passcode
        = (if (closeStep st ws failSet).1.sessions.isEmpty then none else st.passcode) ∧
    (closeStep st ws failSet).1.storage.passcode
        = (if (closeStep st ws failSet).1.sessions.isEmpty then none
           else st.storage.passcode) := by
  simp only [closeStep]
  split <;> split <;> simp_all

/-- When the close handler leaves the session table empty it resets the
passcode both in memory and in storage. -/
lemma closeStep_empty_reset (st : RoomState) (ws : Nat) (failSet : List Nat)
    (hempty : (closeStep st ws failSet).1.sessions = []) :
    (closeStep st ws failSet).1.passcode = none ∧
    (closeStep st ws failSet).1.storage.passcode = none := by
  obtain ⟨h1, h2⟩ := closeStep_sessions_passcode st ws failSet
  rw [hempty] at h1 h2
  exact ⟨by simpa using h1, by simpa using h2⟩

/-- With the passcode unset, every upgrade request is admitted, whatever
passcode it carries. -/
lemma roomFetch_none_upgraded (eng : Engines) (st : RoomState) (req : UpgradeRequest)
    (ws tok : Nat) (hpc : st.passcode = none) (hup : isWebSocketUpgradeReq req = true) :
    (roomFetch eng st req ws tok).response = FetchResponse.upgraded := by
  by_cases hu : req.passcodeParam.getD "" = "" <;>
    simp [roomFetch, hup, hpc, hu, handleSessionOpen]

/-- C2 counterexample: a reachable state in which a failed send during an
awareness tombstone broadcast (fired with a non-session origin, as the
awareness engine does for timed-out client removals) removed the last
session, so the session table is empty while the passcode (and its stored
copy) are still set — refuting the claimed invariant that every operation
emptying the table leaves the passcode unset. -/
theorem broadcast_empties_table_passcode_stays :
    (run engTest ⟨none, none⟩
        [Event.connect 1 1 (some "websocket") (some "abc"),
         Event.awarenessUpdate [] [] [7] Origin.nonSession [1]]).sessions = [] ∧
    (run engTest ⟨none, none⟩
        [Event.connect 1 1 (some "websocket") (some "abc"),
         Event.awarenessUpdate [] [] [7] Origin.nonSession [1]]).passcode = some "abc" := by
  decide

/-- C2 (amended): a transport close that leaves the session table empty
does reset the passcode (in memory and in storage), but the session
removal performed on a failed send inside broadcast never changes the
passcode, so the table can become empty with the passcode still set. -/
theorem close_resets_passcode_broadcast_does_not (st : RoomState) (ws : Nat)
    (failSet : List Nat) (newDoc : List Nat) (origin : Origin)
    (added updated removed : List Nat) :
    ((closeStep st ws failSet).1.sessions = [] →
        (closeStep st ws failSet).1.passcode = none ∧
        (closeStep st ws failSet).1.storage.passcode = none) ∧
    (docUpdateStep st newDoc origin failSet).1.passcode = st.passcode ∧
    (awarenessUpdateStep st added updated removed origin failSet).passcode = st.passcode :=
  ⟨closeStep_empty_reset st ws failSet,
   docUpdateStep_passcode st newDoc origin failSet,
   awarenessUpdateStep_passcode st added updated removed origin failSet⟩

/-- Witness for the amended C2 theorem at a concrete one-session state. -/
theorem close_resets_passcode_broadcast_does_not_witness :
    (closeStep ⟨[(1, 1)], some "abc", [], [], ⟨none, some "abc"⟩⟩ 1 []).1.passcode = none :=
  ((close_resets_passcode_broadcast_does_not
      ⟨[(1, 1)], some "abc", [], [], ⟨none, some "abc"⟩⟩ 1 [] [] Origin.nonSession
      [] [] []).1 (by decide)).1

/-- C3: in any reachable state whose passcode is set, an upgrade request
with a missing or mismatched supplied passcode is rejected with 401, and
the room state — passcode, session table and storage — is returned
unchanged, with nothing sent and no session registered. -/
theorem set_passcode_mismatch_rejected (eng : Engines) (st : RoomState)
    (req : UpgradeRequest) (ws tok : Nat) (sec : String)
    (hreach : Reachable eng st)
    (hsec : st.passcode = some sec)
    (hup : isWebSocketUpgradeReq req = true)
    (hmiss : req.passcodeParam = none ∨ ∃ p, req.passcodeParam = some p ∧ p ≠ sec) :
    roomFetch eng st req ws tok = ⟨FetchResponse.invalidPasscode, st, []⟩ := by
  have hne : sec ≠ "" := fun hcon => by
    exact reachable_passcode_ne eng st hreach (by rw [hsec, hcon])
  have huser : ¬ req.passcodeParam.getD "" = sec := by
    rcases hmiss with hnone | ⟨p, hp, hps⟩
    · rw [hnone]
      simpa using fun hcon => hne hcon.symm
    · rw [hp]
      simpa using hps
  simp only [roomFetch, hup, if_true, hsec]
  rw [if_neg huser]

/-- Witness for the C3 theorem: after one client fixed the passcode "abc",
a second upgrade with no passcode is rejected and the state is unchanged. -/
theorem set_passcode_mismatch_rejected_witness :
    roomFetch engTest
        (run engTest ⟨none, none⟩ [Event.connect 1 1 (some "websocket") (some "abc")])
        ⟨some "websocket", none⟩ 2 2 =
      ⟨FetchResponse.invalidPasscode,
        run engTest ⟨none, none⟩ [Event.connect 1 1 (some "websocket") (some "abc")], []⟩ :=
  set_passcode_mismatch_rejected engTest
    (run engTest ⟨none, none⟩ [Event.connect 1 1 (some "websocket") (some "abc")])
    ⟨some "websocket", none⟩ 2 2 "abc"
    ⟨⟨none, none⟩, [Event.connect 1 1 (some "websocket") (some "abc")], rfl⟩
    (by decide) (by decide) (Or.inl rfl)

/-- C4 counterexample: with the passcode unset, a client that supplies the
empty passcode (`?passcode=`) is admitted, yet the passcode state stays
unset and nothing is persisted — refuting the claimed unconditional
transition to Set(supplied). -/
theorem unset_empty_supplied_not_recorded :
    (roomFetch engTest (initState ⟨none, none⟩) ⟨some "websocket", some ""⟩ 1 1).response
        = FetchResponse.upgraded ∧
    (roomFetch engTest (initState ⟨none, none⟩) ⟨some "websocket", some ""⟩ 1 1).state.passcode
        = none ∧
    (roomFetch engTest (initState ⟨none, none⟩) ⟨some "websocket", some ""⟩ 1
        1).state.storage.passcode = none := by
  decide

/-- C4 (amended): with the passcode unset, an upgrade request supplying a
non-empty passcode is admitted, the passcode transitions to Set(supplied)
in memory, the value is written to the persistent store by the time the
upgrade completes, and the session is registered; a supplied empty
passcode is admitted but leaves the state Unset. -/
theorem unset_nonempty_supplied_sets_passcode (eng : Engines) (st : RoomState)
    (req : UpgradeRequest) (ws tok : Nat) (p : String)
    (hpc : st.passcode = none)
    (hup : isWebSocketUpgradeReq req = true)
    (hp : req.passcodeParam = some p) (hne : p ≠ "") :
    (roomFetch eng st req ws tok).response = FetchResponse.upgraded ∧
    (roomFetch eng st req ws tok).state.passcode = some p ∧
    (roomFetch eng st req ws tok).state.storage.passcode = some p ∧
    (roomFetch eng st req ws tok).state.sessions = sessionSet st.sessions ws tok := by
  simp only [roomFetch, hup, if_true, hpc, hp]
  simp [hne, handleSessionOpen]

/-- Witness for the amended C4 theorem on a fresh room. -/
theorem unset_nonempty_supplied_sets_passcode_witness :
    (roomFetch engTest (initState ⟨none, none⟩) ⟨some "websocket", some "abc"⟩ 1 1).response
        = FetchResponse.upgraded ∧
    (roomFetch engTest (initState ⟨none, none⟩) ⟨some "websocket", some "abc"⟩ 1 1).state.passcode
        = some "abc" ∧
    (roomFetch engTest (initState ⟨none, none⟩) ⟨some "websocket", some "abc"⟩ 1
        1).state.storage.passcode = some "abc" ∧
    (roomFetch engTest (initState ⟨none, none⟩) ⟨some "websocket", some "abc"⟩ 1 1).state.sessions
        = sessionSet (initState ⟨none, none⟩).sessions 1 1 :=
  unset_nonempty_supplied_sets_passcode engTest (initState ⟨none, none⟩)
    ⟨some "websocket", some "abc"⟩ 1 1 "abc" rfl (by decide) rfl (by decide)

/-- C5: when the close handler runs and the session table comes out empty,
the in-memory passcode is reset to null and the stored passcode entry is
deleted, so the next upgrade request is admitted whatever passcode it
carries (or none), which it may then fix as the new room passcode. -/
theorem last_close_resets_passcode (st : RoomState) (ws : Nat) (failSet : List Nat)
    (hempty : (closeStep st ws failSet).1.sessions = []) :
    (closeStep st ws failSet).1.passcode = none ∧
    (closeStep st ws failSet).1.storage.passcode = none ∧
    ∀ (eng : Engines) (req : UpgradeRequest) (ws2 tok2 : Nat),
      isWebSocketUpgradeReq req = true →
      (roomFetch eng (closeStep st ws failSet).1 req ws2 tok2).response
          = FetchResponse.upgraded := by
  obtain ⟨h1, h2⟩ := closeStep_empty_reset st ws failSet hempty
  exact ⟨h1, h2, fun eng req ws2 tok2 hup =>
    roomFetch_none_upgraded eng _ req ws2 tok2 h1 hup⟩

/-- Witness for the C5 theorem: the sole session of a room with passcode
"abc" closes; the passcode is reset and a client with passcode "zzz" is
then admitted. -/
theorem last_close_resets_passcode_witness :
    (closeStep ⟨[(1, 1)], some "abc", [], [], ⟨none, some "abc"⟩⟩ 1 []).1.passcode = none ∧
    (roomFetch engTest (closeStep ⟨[(1, 1)], some "abc", [], [], ⟨none, some "abc"⟩⟩ 1 []).1
        ⟨some "websocket", some "zzz"⟩ 2 2).response = FetchResponse.upgraded :=
  ⟨(last_close_resets_passcode ⟨[(1, 1)], some "abc", [], [], ⟨none, some "abc"⟩⟩ 1 []
      (by decide)).1,
   (last_close_resets_passcode ⟨[(1, 1)], some "abc", [], [], ⟨none, some "abc"⟩⟩ 1 []
      (by decide)).2.2 engTest ⟨some "websocket", some "zzz"⟩ 2 2 (by decide)⟩

/-- C6 counterexample: for the path "/websocket" with no `room` query
parameter, the claimed precedence (single-segment rule before the
websocket-prefix rule) resolves the room name to "websocket", but the code
checks the websocket prefix first and resolves "", so the router rejects
the upgrade with 400 instead of forwarding it. -/
theorem roomname_single_websocket_segment_cx :
    claimRoomName ⟨none, "/websocket"⟩ = "websocket" ∧
    getRoomName ⟨none, "/websocket"⟩ = "" ∧
    workerFetch ⟨some "websocket", ⟨none, "/websocket"⟩⟩ = WorkerResult.missingRoom := by
  decide

/-- C6 (amended): the room name is the `room` query parameter if present
and non-empty, else the segments following a leading `websocket` path
segment, else the single path segment when the path has exactly one
segment; when the resolved name is empty an upgrade request is answered
400 by the router, and a request is forwarded to a Room Actor only under a
non-empty name. -/
theorem roomname_resolution_amended (u : UrlParts) (req : WorkerRequest) :
    getRoomName u = amendedRoomName u ∧
    (isUpgradeHeaderVal req.upgradeHeader = true → getRoomName req.url = "" →
        workerFetch req = WorkerResult.missingRoom) ∧
    (∀ r, workerFetch req = WorkerResult.forwarded r → r ≠ "") := by
  refine ⟨rfl, ?_, ?_⟩
  · intro hup hempty
    simp [workerFetch, hup, hempty]
  · intro r h
    revert h
    simp only [workerFetch]
    split
    · split
      · exact fun h => WorkerResult.noConfusion h
      · next hne =>
        intro h
        injection h with hr
        rw [← hr]
        exact hne
    · exact fun h => WorkerResult.noConfusion h

/-- Witness for the amended C6 theorem at the diverging input. -/
theorem roomname_resolution_amended_witness :
    getRoomName ⟨none, "/websocket"⟩ = amendedRoomName ⟨none, "/websocket"⟩ ∧
    workerFetch ⟨some "websocket", ⟨none, "/websocket"⟩⟩ = WorkerResult.missingRoom :=
  ⟨(roomname_resolution_amended ⟨none, "/websocket"⟩
      ⟨some "websocket", ⟨none, "/websocket"⟩⟩).1,
   (roomname_resolution_amended ⟨none, "/websocket"⟩
      ⟨some "websocket", ⟨none, "/websocket"⟩⟩).2.1 (by decide) (by decide)⟩

/-- C7: a Sync frame hands the remaining bytes together with this
session's identity token to the sync-message handler; the reply — the tag
byte followed by the handler's response — is sent to the originating
session only, and only when it carries payload beyond the tag (encoder
length greater than one); otherwise nothing is sent; the dispatch itself
performs no broadcast and does not close the connection. -/
theorem sync_frame_reply_to_origin_only (eng : Engines) (st : RoomState)
    (ws tok : Nat) (d rest : List Nat)
    (hdec : readVarUint d = some (MESSAGE_SYNC, rest)) :
    messageStep eng st ws tok (WsData.binary d) =
      ⟨{ st with doc := (eng.readSyncMessage rest tok st.doc).2 },
       if (eng.readSyncMessage rest tok st.doc).1 = [] then []
       else [(ws, MESSAGE_SYNC :: (eng.readSyncMessage rest tok st.doc).1)],
       false⟩ := by
  simp only [messageStep, hdec]
  rcases hres : (eng.readSyncMessage rest tok st.doc).1 with _ | ⟨b, bs⟩ <;>
    simp [hres, MESSAGE_SYNC]

/-- Witness for the C7 theorem on the concrete frame [0, 5]. -/
theorem sync_frame_reply_to_origin_only_witness :
    messageStep engTest (initState ⟨none, none⟩) 1 1 (WsData.binary [0, 5]) =
      ⟨{ initState ⟨none, none⟩ with
           doc := (engTest.readSyncMessage [5] 1 (initState ⟨none, none⟩).doc).2 },
       if (engTest.readSyncMessage [5] 1 (initState ⟨none, none⟩).doc).1 = [] then []
       else [(1, MESSAGE_SYNC ::
                (engTest.readSyncMessage [5] 1 (initState ⟨none, none⟩).doc).1)],
       false⟩ :=
  sync_frame_reply_to_origin_only engTest (initState ⟨none, none⟩) 1 1 [0, 5] [5]
    (by decide)

/-- A non-empty awareness table makes the close handler call removeStates
on every current client id with reason "disconnect" and leaves the
awareness table empty. -/
lemma closeStep_awareness (st : RoomState) (ws : Nat) (failSet : List Nat)
    (hne : st.awareness ≠ []) :
    (closeStep st ws failSet).1.awareness = [] ∧
    (closeStep st ws failSet).2 = [(st.awareness.map Prod.fst, "disconnect")] := by
  have hemp : (st.awareness.map Prod.fst).isEmpty = false := by
    rcases h : st.awareness with _ | ⟨e, rest⟩
    · exact absurd h hne
    · simp [h]
  have hfilter : st.awareness.filter
      (fun e => ¬ (st.awareness.map Prod.fst).contains e.1) = [] := by
    rw [List.filter_eq_nil_iff]
    rintro ⟨a, b⟩ hab
    simp
    exact ⟨b, hab⟩
  simp only [closeStep, hemp, Bool.false_eq_true, if_false]
  split <;> exact ⟨hfilter, rfl⟩

/-- With an empty awareness table, a QueryAwareness frame is answered with
a snapshot encoded over the empty id set, sent to the requester only. -/
lemma messageStep_query_empty (eng : Engines) (st : RoomState) (ws tok : Nat)
    (hemp : st.awareness = []) :
    (messageStep eng st ws tok (WsData.binary [MESSAGE_QUERY_AWARENESS])).sends
      = [(ws, encodeAwarenessMessage (eng.encodeAwarenessUpdate [] []))] := by
  simp [messageStep, readVarUint, readVarUintAux, hemp,
    MESSAGE_SYNC, MESSAGE_AWARENESS, MESSAGE_QUERY_AWARENESS]

/-- C8: on transport close, every client id present in the room's entire
awareness state is removed in one removeStates call with reason
"disconnect" (computed before the session entry is deleted); afterwards
the awareness table is empty, so no id — in particular `cid` — survives,
and a subsequent QueryAwareness from any session is answered with a
snapshot over the empty id set. -/
theorem close_removes_all_awareness (st : RoomState) (ws : Nat) (failSet : List Nat)
    (cid : Nat) (hid : cid ∈ st.awareness.map Prod.fst) :
    (closeStep st ws failSet).2 = [(st.awareness.map Prod.fst, "disconnect")] ∧
    (closeStep st ws failSet).1.awareness = [] ∧
    cid ∉ (closeStep st ws failSet).1.awareness.map Prod.fst ∧
    ∀ (eng : Engines) (ws2 tok2 : Nat),
      (messageStep eng (closeStep st ws failSet).1 ws2 tok2
          (WsData.binary [MESSAGE_QUERY_AWARENESS])).sends
        = [(ws2, encodeAwarenessMessage (eng.encodeAwarenessUpdate [] []))] := by
  have hne : st.awareness ≠ [] := by
    intro h
    rw [h] at hid
    simp at hid
  obtain ⟨ha, hc⟩ := closeStep_awareness st ws failSet hne
  refine ⟨hc, ha, by simp [ha], fun eng ws2 tok2 => ?_⟩
  rw [messageStep_query_empty eng _ ws2 tok2 ha]

/-- Witness for the C8 theorem: client id 7 is present, its sole session
closes, and the next QueryAwareness is answered over the empty id set. -/
theorem close_removes_all_awareness_witness :
    (closeStep ⟨[(1, 1), (2, 2)], some "abc", [], [(7, [])], ⟨none, some "abc"⟩⟩ 1 []).2
        = [([7], "disconnect")] ∧
    (closeStep ⟨[(1, 1), (2, 2)], some "abc", [], [(7, [])], ⟨none, some "abc"⟩⟩ 1
        []).1.awareness = [] ∧
    7 ∉ ((closeStep ⟨[(1, 1), (2, 2)], some "abc", [], [(7, [])], ⟨none, some "abc"⟩⟩ 1
        []).1.awareness.map Prod.fst) ∧
    (messageStep engTest
        (closeStep ⟨[(1, 1), (2, 2)], some "abc", [], [(7, [])], ⟨none, some "abc"⟩⟩ 1
          []).1 2 2 (WsData.binary [MESSAGE_QUERY_AWARENESS])).sends
      = [(2, encodeAwarenessMessage (engTest.encodeAwarenessUpdate [] []))] := by
  obtain ⟨h1, h2, h3, h4⟩ := close_removes_all_awareness
    ⟨[(1, 1), (2, 2)], some "abc", [], [(7, [])], ⟨none, some "abc"⟩⟩ 1 [] 7 (by decide)
  exact ⟨h1, h2, h3, h4 engTest 2 2⟩

/-- C9: a binary frame whose type tag is Auth or any unrecognized value is
ignored: the room state is unchanged, nothing is sent, the connection is
not closed, and the handling of any subsequent frame from the same
session is exactly what it would have been without the ignored frame. -/
theorem unrecognized_frame_ignored (eng : Engines) (st : RoomState) (ws tok : Nat)
    (d rest : List Nat) (t : Nat)
    (hdec : readVarUint d = some (t, rest))
    (ht : t = MESSAGE_AUTH ∨
      (t ≠ MESSAGE_SYNC ∧ t ≠ MESSAGE_AWARENESS ∧ t ≠ MESSAGE_QUERY_AWARENESS)) :
    messageStep eng st ws tok (WsData.binary d) = ⟨st, [], false⟩ ∧
    ∀ d2, messageStep eng (messageStep eng st ws tok (WsData.binary d)).state ws tok d2
        = messageStep eng st ws tok d2 := by
  have hts : t ≠ MESSAGE_SYNC ∧ t ≠ MESSAGE_AWARENESS ∧ t ≠ MESSAGE_QUERY_AWARENESS := by
    rcases ht with h | h
    · exact ⟨by rw [h]; decide, by rw [h]; decide, by rw [h]; decide⟩
    · exact h
  have h1 : messageStep eng st ws tok (WsData.binary d) = ⟨st, [], false⟩ := by
    simp only [messageStep, hdec]
    simp [hts.1, hts.2.1, hts.2.2]
  exact ⟨h1, fun d2 => by rw [h1]⟩

/-- Witness for the C9 theorem: frame [99] is ignored and a following Sync
frame [0, 7] is handled as if [99] had never arrived. -/
theorem unrecognized_frame_ignored_witness :
    messageStep engTest (initState ⟨none, none⟩) 1 1 (WsData.binary [99]) =
        ⟨initState ⟨none, none⟩, [], false⟩ ∧
    messageStep engTest
        (messageStep engTest (initState ⟨none, none⟩) 1 1 (WsData.binary [99])).state 1 1
        (WsData.binary [0, 7])
      = messageStep engTest (initState ⟨none, none⟩) 1 1 (WsData.binary [0, 7]) :=
  ⟨(unrecognized_frame_ignored engTest (initState ⟨none, none⟩) 1 1 [99] [] 99
      (by decide) (Or.inr (by decide))).1,
   (unrecognized_frame_ignored engTest (initState ⟨none, none⟩) 1 1 [99] [] 99
      (by decide) (Or.inr (by decide))).2 (WsData.binary [0, 7])⟩

/-- C10: a message event whose data is not a binary buffer (a text frame,
or anything else that is neither an ArrayBuffer nor a view) makes the
handler return before decoding: the room state — document, awareness,
passcode and session table — is unchanged, nothing is sent, and the
connection stays open. -/
theorem nonbinary_event_ignored (eng : Engines) (st : RoomState) (ws tok : Nat)
    (s : String) :
    messageStep eng st ws tok (WsData.text s) = ⟨st, [], false⟩ ∧
    messageStep eng st ws tok WsData.other = ⟨st, [], false⟩ :=
  ⟨rfl, rfl⟩
